import Mathlib

/-!
Shallow embedding of the orchestration core of `sshyran/nwjs-node`:
`src/node_task_queue.cc` (microtask/tick bridge and promise-rejection
tracking) and `src/node_main_instance.cc` (engine-instance lifecycle and
main loop).  Definitions follow the C++ sources; external collaborators
(the V8 microtask checkpoint, the libuv reactor, the tick callback) are
modelled as explicit parameters so that the control flow of the embedded
functions matches the source line by line.
-/

namespace NwjsNode

/-! ## Task queue (`src/node_task_queue.cc`) -/

/-- The two TickInfo flags shared between native and scripted code
(`env->tick_info()`). -/
structure TickInfo where
  has_tick_scheduled : Bool
  has_rejection_to_warn : Bool
deriving DecidableEq, Repr

/-- Receiver of a scripted call made by the bridge. -/
inductive Receiver
  | processObject
  | undefinedRecv
deriving DecidableEq, Repr

/-- Observable effects of `RunNextTicksNative`. -/
inductive TQEvent
  /-- `v8::MicrotasksScope::PerformCheckpoint(env->isolate())`. -/
  | checkpoint
  /-- `callback->Call(env->context(), recv, argc, nullptr)`. -/
  | tickCall (recv : Receiver) (argc : Nat)
deriving DecidableEq, Repr

/-- `RunNextTicksNative(Environment* env)` from `node_task_queue.cc`
lines 43-54.  The native microtask checkpoint may run scripted microtasks
that set the TickInfo flags; its effect on them is the parameter `cp`.
`callbackRegistered` models `!env->tick_callback_function().IsEmpty()`
(the `CHECK` aborts when it fails, modelled by `none`), and `callOk`
models whether `callback->Call(...)` returned a non-empty handle, i.e.
completed without an engine-level exception.  The result pairs the
returned boolean with the trace of effects. -/
def runNextTicksNative (ti : TickInfo) (cp : TickInfo → TickInfo)
    (callbackRegistered : Bool) (callOk : Bool) :
    Option (Bool × List TQEvent) :=
  -- if (!tick_info->has_tick_scheduled() && !tick_info->has_rejection_to_warn())
  --   v8::MicrotasksScope::PerformCheckpoint(env->isolate());
  let bothClear := !ti.has_tick_scheduled && !ti.has_rejection_to_warn
  let ti1 := if bothClear then cp ti else ti
  let tr1 : List TQEvent := if bothClear then [TQEvent.checkpoint] else []
  -- if (!tick_info->has_tick_scheduled() && !tick_info->has_rejection_to_warn())
  --   return true;
  if !ti1.has_tick_scheduled && !ti1.has_rejection_to_warn then
    some (true, tr1)
  else
    -- CHECK(!callback.IsEmpty());
    if !callbackRegistered then none
    else
      -- return !callback->Call(env->context(), env->process_object(), 0,
      --                        nullptr).IsEmpty();
      some (callOk, tr1 ++ [TQEvent.tickCall Receiver.processObject 0])

/-- An engine value handed to or produced by the bridge; `undef` is the
engine's `undefined`. -/
inductive JSVal
  | undef
  | other (n : Nat)
deriving DecidableEq, Repr

/-- `Local<Value>` that may be the empty handle: `none` is empty. -/
abbrev MaybeVal := Option JSVal

/-- The process-wide rejection counters (`static std::atomic<uint64_t>`);
64-bit machine integers, so increments wrap modulo `2 ^ 64`. -/
structure RejectionCounters where
  unhandledRejections : Nat
  rejectionsHandledAfter : Nat
deriving DecidableEq, Repr

def UINT64_MOD : Nat := 2 ^ 64

/-- `v8::PromiseRejectEvent` numeric values. -/
def kPromiseRejectWithNoHandler : Nat := 0
def kPromiseHandlerAddedAfterReject : Nat := 1
def kPromiseRejectAfterResolved : Nat := 2
def kPromiseResolveAfterResolved : Nat := 3

/-- A dispatch made by `PromiseRejectCallback`: the argument triple
`{ type, promise, value }` called against the `Undefined` receiver. -/
structure RejectDispatch where
  eventType : Nat
  promise : Nat
  value : JSVal
  recv : Receiver
deriving DecidableEq, Repr

/-- Outcome of one `PromiseRejectCallback` invocation: the counters after
the call and the dispatch performed, if any; `none` for the whole result
models a fatal `CHECK` abort. -/
abbrev PRCOutcome := Option (RejectionCounters × Option RejectDispatch)

/-- `if (value.IsEmpty()) value = Undefined(isolate);`
(`node_task_queue.cc` lines 109-111). -/
def valueOrUndef (v : MaybeVal) : JSVal :=
  match v with
  | none => JSVal.undef
  | some x => x

/-- `PromiseRejectCallback(PromiseRejectMessage message)` from
`node_task_queue.cc` lines 67-116.  `envPresent` models
`Environment::GetCurrent(isolate) != nullptr`; `callbackRegistered`
models `!env->promise_reject_callback().IsEmpty()` (the `CHECK` aborts
otherwise); `event` is `message.GetEvent()` as a machine integer;
`messageValue` is `message.GetValue()` (possibly the empty handle);
`promise` identifies `message.GetPromise()`; `c` is the state of the two
static counters on entry. -/
def promiseRejectCallback (envPresent : Bool) (callbackRegistered : Bool)
    (event : Nat) (promise : Nat) (messageValue : MaybeVal)
    (c : RejectionCounters) : PRCOutcome :=
  -- if (env == nullptr) return;
  if !envPresent then some (c, none)
  else
    -- CHECK(!callback.IsEmpty());
    if !callbackRegistered then none
    else
      if event = kPromiseRejectWithNoHandler then
        -- value = message.GetValue(); unhandledRejections++;
        some ({ c with
                 unhandledRejections :=
                   (c.unhandledRejections + 1) % UINT64_MOD },
              some ⟨event, promise, valueOrUndef messageValue,
                    Receiver.undefinedRecv⟩)
      else if event = kPromiseHandlerAddedAfterReject then
        -- value = Undefined(isolate); rejectionsHandledAfter++;
        some ({ c with
                 rejectionsHandledAfter :=
                   (c.rejectionsHandledAfter + 1) % UINT64_MOD },
              some ⟨event, promise, JSVal.undef, Receiver.undefinedRecv⟩)
      else if event = kPromiseResolveAfterResolved then
        some (c, some ⟨event, promise, valueOrUndef messageValue,
                       Receiver.undefinedRecv⟩)
      else if event = kPromiseRejectAfterResolved then
        some (c, some ⟨event, promise, valueOrUndef messageValue,
                       Receiver.undefinedRecv⟩)
      else
        -- else { return; }
        some (c, none)

/-- Outcome domain for `EnqueueMicrotask`: either the callback was
scheduled on the native microtask queue, or the call failed.  A failure
is either a catchable engine type error (what the spec describes) or a
fatal `CHECK` abort (what the code performs); the two are distinct
observable outcomes. -/
inductive MicrotaskOutcome
  | scheduled (queue : List Nat)
  | threwTypeError (queue : List Nat)
  | fatalCheck
deriving DecidableEq, Repr

/-- `EnqueueMicrotask(const FunctionCallbackInfo<Value>& args)` from
`node_task_queue.cc` lines 33-40.  `isFunction` models
`args[0]->IsFunction()`, `cb` identifies the callback value, `queue` is
the engine's native microtask queue on entry. -/
def enqueueMicrotask (isFunction : Bool) (cb : Nat) (queue : List Nat) :
    MicrotaskOutcome :=
  -- CHECK(args[0]->IsFunction());
  if !isFunction then MicrotaskOutcome.fatalCheck
  else
    -- isolate->EnqueueMicrotask(args[0].As<Function>());
    MicrotaskOutcome.scheduled (queue ++ [cb])

/-! ## Engine-instance lifecycle (`src/node_main_instance.cc`) -/

/-- Observable steps of the create-owned-mode constructor
(`NodeMainInstance::NodeMainInstance`, lines 44-83). -/
inductive CtorEvent
  | createAllocator
  | resetAllocator
  | allocateIsolate
  | registerIsolate
  | setCreateParamsForNode
  | initializeIsolate
  | newIsolateData
  | setUpMisc
  | setUpErrorHandlers
deriving DecidableEq, Repr

/-- The fields of a `NodeMainInstance` relevant to the claims, after the
create-owned-mode constructor finished.  `paramsAllocator` is the
allocator stored into `params->array_buffer_allocator` and therefore the
one the isolate is initialized with (`none` = null). -/
structure OwnedInstance where
  array_buffer_allocator : Option Unit
  paramsAllocator : Option Unit
  owns_isolate : Bool
  deserialize_mode : Bool
deriving DecidableEq, Repr

/-- Create-owned-mode constructor, `node_main_instance.cc` lines 44-83.
`node_is_nwjs` is the process-wide flag (line 16/58); `indexes` models
`per_isolate_data_indexes` (`none` = nullptr); `externalRefs` models
`params->external_references != nullptr`.  `none` as result models a
fatal `CHECK` abort (`CHECK_IMPLIES(deserialize_mode_,
params->external_references != nullptr)`): no instance is produced.
The result pairs the finished instance with the trace of constructor
steps. -/
def mkOwnedInstance (node_is_nwjs : Bool) (indexes : Option (List Nat))
    (externalRefs : Bool) : Option (OwnedInstance × List CtorEvent) :=
  -- array_buffer_allocator_(ArrayBufferAllocator::Create()), owns_isolate_(true)
  let alloc0 : Option Unit := some ()
  let tr0 : List CtorEvent := [CtorEvent.createAllocator]
  -- if (node_is_nwjs) array_buffer_allocator_.reset();
  let alloc := if node_is_nwjs then none else alloc0
  let tr1 := tr0 ++ (if node_is_nwjs then [CtorEvent.resetAllocator] else [])
  -- params->array_buffer_allocator = array_buffer_allocator_.get();
  -- isolate_ = Isolate::Allocate(); CHECK_NOT_NULL(isolate_);
  -- platform->RegisterIsolate(isolate_, event_loop);
  -- SetIsolateCreateParamsForNode(params);
  -- Isolate::Initialize(isolate_, *params);
  let tr2 := tr1 ++ [CtorEvent.allocateIsolate, CtorEvent.registerIsolate,
                     CtorEvent.setCreateParamsForNode,
                     CtorEvent.initializeIsolate]
  -- deserialize_mode_ = per_isolate_data_indexes != nullptr;
  let dmode := indexes.isSome
  -- CHECK_IMPLIES(deserialize_mode_, params->external_references != nullptr);
  if dmode && !externalRefs then none
  else
    let tr3 := tr2 ++ [CtorEvent.newIsolateData, CtorEvent.setUpMisc] ++
               (if !dmode then [CtorEvent.setUpErrorHandlers] else [])
    some ({ array_buffer_allocator := alloc, paramsAllocator := alloc,
            owns_isolate := true, deserialize_mode := dmode }, tr3)

/-- Observable steps of the destructor
(`NodeMainInstance::~NodeMainInstance`, lines 91-97). -/
inductive DtorEvent
  | disposeIsolate
  | unregisterIsolate
deriving DecidableEq, Repr

/-- `NodeMainInstance::~NodeMainInstance()`, lines 91-97:
`if (!owns_isolate_) return; isolate_->Dispose();
platform_->UnregisterIsolate(isolate_);`. -/
def destructorEvents (owns_isolate : Bool) : List DtorEvent :=
  if !owns_isolate then []
  else [DtorEvent.disposeIsolate, DtorEvent.unregisterIsolate]

/-- The fields of the `Environment` built by `CreateMainEnvironment`
that the claims inspect. -/
structure MainEnv where
  isMainThread : Bool
  ownsProcessState : Bool
  ownsInspector : Bool
  /-- whether `env->RunBootstrapping()` ran and returned non-empty. -/
  bootstrapped : Bool
deriving DecidableEq, Repr

/-- `NodeMainInstance::CreateMainEnvironment(int* exit_code)`, lines
168-217 (built with `HAVE_INSPECTOR && NODE_USE_V8_PLATFORM`).
`contextEmpty` models `context.IsEmpty()` after creation/restoration
(the `CHECK`/`ToLocalChecked` abort, modelled by `none`);
`inspectorExit` is the status returned by `env->InitializeInspector`;
`bootstrapOk` models `!env->RunBootstrapping().IsEmpty()`.  The result
is the environment together with the value left in `*exit_code`. -/
def createMainEnvironment (contextEmpty : Bool) (inspectorExit : Int)
    (bootstrapOk : Bool) : Option (MainEnv × Int) :=
  -- *exit_code = 0;  // Reset the exit code to 0
  -- context = ... ; CHECK(!context.IsEmpty());
  if contextEmpty then none
  else
    let env0 : MainEnv := { isMainThread := true, ownsProcessState := true,
                            ownsInspector := true, bootstrapped := false }
    -- *exit_code = env->InitializeInspector(nullptr);
    -- if (*exit_code != 0) return env;
    if inspectorExit ≠ 0 then some (env0, inspectorExit)
    else
      -- if (env->RunBootstrapping().IsEmpty()) *exit_code = 1;
      if bootstrapOk then some ({ env0 with bootstrapped := true }, 0)
      else some (env0, 1)

/-! ### The main loop of `Run()` (lines 118-143)

The reactor, the before-exit hooks and the before-exit event are external
collaborators; they are modelled as transition functions on an abstract
world state `σ` together with the two observations the loop makes of that
state (`uv_loop_alive` and `env->is_stopping()`). -/

structure LoopModel (σ : Type) where
  /-- `uv_run(env->event_loop(), UV_RUN_DEFAULT)`. -/
  uvRun : σ → σ
  /-- `per_process::v8_platform.DrainVMTasks(isolate_)`. -/
  drainVMTasks : σ → σ
  /-- `uv_loop_alive(env->event_loop())`. -/
  alive : σ → Bool
  /-- `env->is_stopping()`. -/
  stopping : σ → Bool
  /-- `env->RunBeforeExitCallbacks()`. -/
  runBeforeExitCallbacks : σ → σ
  /-- `EmitBeforeExit(env.get())`. -/
  emitBeforeExit : σ → σ

/-- One iteration of the `do { ... } while (more == true &&
!env->is_stopping());` loop, lines 123-140.  Returns the world state at
the end of the iteration and whether the loop repeats.  A `continue` in
a C++ do-while jumps to the controlling expression; at that point the
local `more` is `true` and `is_stopping()` was just observed `false`, so
the `continue` path repeats the loop. -/
def loopIter {σ : Type} (M : LoopModel σ) (s : σ) : σ × Bool :=
  let s1 := M.drainVMTasks (M.uvRun s)
  -- more = uv_loop_alive(env->event_loop());
  -- if (more && !env->is_stopping()) continue;
  if M.alive s1 && !M.stopping s1 then (s1, true)
  else
    -- env->RunBeforeExitCallbacks();
    let s2 := M.runBeforeExitCallbacks s1
    -- if (!uv_loop_alive(env->event_loop())) EmitBeforeExit(env.get());
    let s3 := if !M.alive s2 then M.emitBeforeExit s2 else s2
    -- more = uv_loop_alive(env->event_loop());
    -- } while (more == true && !env->is_stopping());
    (s3, M.alive s3 && !M.stopping s3)

/-- The full loop, driven by fuel since the source loop need not
terminate; `none` means the fuel ran out. -/
def runLoop {σ : Type} (M : LoopModel σ) : Nat → σ → Option σ
  | 0, _ => none
  | fuel + 1, s =>
      match loopIter M s with
      | (s1, true) => runLoop M fuel s1
      | (s1, false) => some s1

/-- Phases of `NodeMainInstance::Run()` (lines 99-164) at the
granularity the claims observe. -/
inductive RunPhase
  | loadEnvironment
  | mainLoop
  | emitExit
  | waitForInspectorDisconnect
  | setCanCallIntoJsFalse
  | stopSubWorkerContexts
  | resetStdio
  | runCleanup
  | runAtExit
  | drainVMTasksFinal
  | cancelVMTasks
deriving DecidableEq, Repr

/-- The unconditional teardown tail of `Run()`, lines 150-157. -/
def teardownPhases : List RunPhase :=
  [RunPhase.setCanCallIntoJsFalse, RunPhase.stopSubWorkerContexts,
   RunPhase.resetStdio, RunPhase.runCleanup, RunPhase.runAtExit,
   RunPhase.drainVMTasksFinal, RunPhase.cancelVMTasks]

/-- `NodeMainInstance::Run()`, lines 99-164.  Inputs are the parameters
of `createMainEnvironment`, the loop collaborators, fuel for the loop,
the initial world state, and `emitExitCode`, the code produced by
`EmitExit(env.get())`.  The result is the returned exit code together
with the trace of phases executed; `none` models a fatal `CHECK` abort
inside `CreateMainEnvironment` or exhausted fuel. -/
def runMain {σ : Type} (M : LoopModel σ) (fuel : Nat) (s0 : σ)
    (contextEmpty : Bool) (inspectorExit : Int) (bootstrapOk : Bool)
    (emitExitCode : Int) : Option (Int × List RunPhase) :=
  -- std::unique_ptr<Environment> env = CreateMainEnvironment(&exit_code);
  -- CHECK_NOT_NULL(env);
  match createMainEnvironment contextEmpty inspectorExit bootstrapOk with
  | none => none
  | some (_, exit0) =>
      if exit0 = 0 then
        -- LoadEnvironment(env.get()); the main loop; EmitExit;
        -- WaitForInspectorDisconnect
        match runLoop M fuel s0 with
        | none => none
        | some _ =>
            some (emitExitCode,
                  [RunPhase.loadEnvironment, RunPhase.mainLoop,
                   RunPhase.emitExit, RunPhase.waitForInspectorDisconnect] ++
                  teardownPhases)
      else
        some (exit0, teardownPhases)

/-! ## Helper predicates used by the theorems -/

/-- The guard of lines 45 and 47 of `node_task_queue.cc`:
both TickInfo flags are clear. -/
def TickInfo.bothClear (ti : TickInfo) : Bool :=
  !ti.has_tick_scheduled && !ti.has_rejection_to_warn

/-- The TickInfo flags as observed by the second guard of
`RunNextTicksNative`: after the conditional checkpoint. -/
def afterCheckpointFlags (ti : TickInfo) (cp : TickInfo → TickInfo) :
    TickInfo :=
  if ti.bothClear then cp ti else ti

/-- Whether a trace event is an invocation of the tick callback. -/
def isTickCall : TQEvent → Bool
  | TQEvent.tickCall _ _ => true
  | _ => false

/-- The world state reached within one loop iteration after
`RunBeforeExitCallbacks` and the conditional `EmitBeforeExit` (the state
observed by the `while` condition on the non-`continue` path). -/
def postBeforeExitState {σ : Type} (M : LoopModel σ) (s : σ) : σ :=
  let s1 := M.drainVMTasks (M.uvRun s)
  let s2 := M.runBeforeExitCallbacks s1
  if !M.alive s2 then M.emitBeforeExit s2 else s2

/-- A trivial collaborator model: the reactor is never alive and nothing
ever stops or changes state. -/
def unitLoopModel : LoopModel Unit where
  uvRun := id
  drainVMTasks := id
  alive := fun _ => false
  stopping := fun _ => false
  runBeforeExitCallbacks := id
  emitBeforeExit := id

/-- A collaborator model on states `(alive, stopping)` in which a
before-exit hook sets the stopping flag and the before-exit event
schedules new reactor work: pending work exists when the `while`
condition runs, yet stopping has been requested. -/
def stopDuringHooksModel : LoopModel (Bool × Bool) where
  uvRun := id
  drainVMTasks := id
  alive := fun s => s.1
  stopping := fun s => s.2
  runBeforeExitCallbacks := fun s => (s.1, true)
  emitBeforeExit := fun s => (true, s.2)

/-- `runNextTicksNative` stated through `TickInfo.bothClear`. -/
theorem runNextTicksNative_eq (ti : TickInfo) (cp : TickInfo → TickInfo)
    (reg : Bool) (callOk : Bool) :
    runNextTicksNative ti cp reg callOk =
      (if (afterCheckpointFlags ti cp).bothClear then
         some (true, if ti.bothClear then [TQEvent.checkpoint] else [])
       else if !reg then none
       else
         some (callOk,
           (if ti.bothClear then [TQEvent.checkpoint] else []) ++
             [TQEvent.tickCall Receiver.processObject 0])) := by
  unfold runNextTicksNative afterCheckpointFlags TickInfo.bothClear
  by_cases h : (!ti.has_tick_scheduled && !ti.has_rejection_to_warn) = true <;>
    simp [h]

/-! ## Claims about the task-queue bridge -/

/-- C1: with a registered tick callback, `RunNextTicksNative` performs a
native microtask checkpoint if and only if both TickInfo flags were
clear; if after that both flags are still clear it returns `true`
without invoking the tick callback; otherwise it invokes the tick
callback exactly once, with zero arguments, against the process object,
and returns `true` iff the call completed without an engine-level
exception. -/
theorem runNextTicksNative_correct (ti : TickInfo) (cp : TickInfo → TickInfo)
    (callOk : Bool) (res : Bool) (tr : List TQEvent)
    (h : runNextTicksNative ti cp true callOk = some (res, tr)) :
    ((TQEvent.checkpoint ∈ tr) ↔ ti.bothClear = true) ∧
    ((afterCheckpointFlags ti cp).bothClear = true →
       res = true ∧ tr.countP (fun e => isTickCall e) = 0) ∧
    ((afterCheckpointFlags ti cp).bothClear = false →
       res = callOk ∧
       tr.count (TQEvent.tickCall Receiver.processObject 0) = 1 ∧
       tr.countP (fun e => isTickCall e) = 1) := by
  rw [runNextTicksNative_eq] at h
  by_cases h2 : (afterCheckpointFlags ti cp).bothClear = true
  · simp only [h2, if_true] at h
    obtain ⟨hres, htr⟩ := Prod.mk.injEq .. ▸ Option.some.injEq .. ▸ h
    subst hres; subst htr
    by_cases h1 : ti.bothClear = true <;>
      simp [h1, h2, isTickCall]
  · simp only [h2, if_false, Bool.not_true, Bool.not_false, if_neg] at h
    simp only [Bool.not_eq_true] at h2
    simp only [h2, Bool.false_eq_true, if_false, Bool.not_true,
      Bool.not_false] at h ⊢
    obtain ⟨hres, htr⟩ := Prod.mk.injEq .. ▸ Option.some.injEq .. ▸ h
    subst hres; subst htr
    by_cases h1 : ti.bothClear = true <;>
      simp [h1, isTickCall]

/-- C1 witness: flags initially clear, the checkpoint schedules a tick,
the tick callback raises. -/
theorem runNextTicksNative_correct_witness :
    (TQEvent.checkpoint ∈
        [TQEvent.checkpoint, TQEvent.tickCall Receiver.processObject 0]) ∧
    ([TQEvent.checkpoint,
        TQEvent.tickCall Receiver.processObject 0].count
        (TQEvent.tickCall Receiver.processObject 0) = 1) := by
  have h := runNextTicksNative_correct ⟨false, false⟩
      (fun _ => ⟨true, false⟩) false false
      [TQEvent.checkpoint, TQEvent.tickCall Receiver.processObject 0] rfl
  exact ⟨h.1.mpr (by decide), (h.2.2 (by decide)).2.1⟩

/-- C2: with an environment and a registered rejection callback,
`PromiseRejectCallback` on reject-with-no-handler increments
`unhandledRejections` by exactly 1 (64-bit), leaves
`rejectionsHandledAfter` unchanged, and dispatches the rejection reason;
on handler-added-after-reject it increments `rejectionsHandledAfter`,
leaves `unhandledRejections` unchanged, and dispatches `undefined`; on
resolve-after-resolved and reject-after-resolved it changes neither
counter and dispatches the newly supplied value; on any other event kind
it returns without dispatching and without counter change. -/
theorem promiseRejectCallback_events (promise : Nat) (v : MaybeVal)
    (c : RejectionCounters) :
    (promiseRejectCallback true true kPromiseRejectWithNoHandler promise v c =
      some ({ unhandledRejections :=
                (c.unhandledRejections + 1) % UINT64_MOD,
              rejectionsHandledAfter := c.rejectionsHandledAfter },
            some ⟨kPromiseRejectWithNoHandler, promise, valueOrUndef v,
                  Receiver.undefinedRecv⟩)) ∧
    (promiseRejectCallback true true kPromiseHandlerAddedAfterReject promise
        v c =
      some ({ unhandledRejections := c.unhandledRejections,
              rejectionsHandledAfter :=
                (c.rejectionsHandledAfter + 1) % UINT64_MOD },
            some ⟨kPromiseHandlerAddedAfterReject, promise, JSVal.undef,
                  Receiver.undefinedRecv⟩)) ∧
    (promiseRejectCallback true true kPromiseResolveAfterResolved promise
        v c =
      some (c, some ⟨kPromiseResolveAfterResolved, promise, valueOrUndef v,
                     Receiver.undefinedRecv⟩)) ∧
    (promiseRejectCallback true true kPromiseRejectAfterResolved promise
        v c =
      some (c, some ⟨kPromiseRejectAfterResolved, promise, valueOrUndef v,
                     Receiver.undefinedRecv⟩)) ∧
    (∀ e, e ∉ [kPromiseRejectWithNoHandler, kPromiseHandlerAddedAfterReject,
               kPromiseRejectAfterResolved, kPromiseResolveAfterResolved] →
       promiseRejectCallback true true e promise v c = some (c, none)) := by
  refine ⟨?_, ?_, ?_, ?_, ?_⟩
  · simp [promiseRejectCallback, kPromiseRejectWithNoHandler,
      kPromiseHandlerAddedAfterReject]
  · simp [promiseRejectCallback, kPromiseRejectWithNoHandler,
      kPromiseHandlerAddedAfterReject]
  · simp [promiseRejectCallback, kPromiseRejectWithNoHandler,
      kPromiseHandlerAddedAfterReject, kPromiseResolveAfterResolved,
      kPromiseRejectAfterResolved]
  · simp [promiseRejectCallback, kPromiseRejectWithNoHandler,
      kPromiseHandlerAddedAfterReject, kPromiseResolveAfterResolved,
      kPromiseRejectAfterResolved]
  · intro e he
    simp only [List.mem_cons, List.not_mem_nil, or_false, not_or] at he
    obtain ⟨h0, h1, h2, h3⟩ := he
    simp [promiseRejectCallback, h0, h1, h2, h3]

/-- C2 witness: an event kind outside the four tracked ones is ignored. -/
theorem promiseRejectCallback_events_witness :
    promiseRejectCallback true true 17 0 none ⟨0, 0⟩ = some (⟨0, 0⟩, none) :=
  (promiseRejectCallback_events 0 none ⟨0, 0⟩).2.2.2.2 17 (by decide)

/-- C3: when no environment is associated with the promise's isolate,
`PromiseRejectCallback` returns without dispatching and without mutating
either counter, whatever the event, value, promise or callback state. -/
theorem promiseRejectCallback_no_env (reg : Bool) (event promise : Nat)
    (v : MaybeVal) (c : RejectionCounters) :
    promiseRejectCallback false reg event promise v c = some (c, none) := by
  simp [promiseRejectCallback]

/-- C9 counterexample: at a non-invocable argument the call ends in a
fatal `CHECK` abort, which is not the catchable type-error failure the
claim states. -/
theorem enqueueMicrotask_nonfunction_counterexample :
    enqueueMicrotask false 0 [] = MicrotaskOutcome.fatalCheck ∧
    MicrotaskOutcome.fatalCheck ≠ MicrotaskOutcome.threwTypeError [] := by
  constructor
  · rfl
  · decide

/-- C9 (amended): if the argument is not an invocable value the call
fails fast with a fatal precondition-check abort — not a catchable type
error — and nothing is added to the native microtask queue; if it is
invocable, the callback is appended to the engine's native microtask
queue and nothing is returned. -/
theorem enqueueMicrotask_correct (cb : Nat) (queue : List Nat) :
    enqueueMicrotask false cb queue = MicrotaskOutcome.fatalCheck ∧
    (∀ q, enqueueMicrotask false cb queue ≠ MicrotaskOutcome.threwTypeError q) ∧
    enqueueMicrotask true cb queue =
      MicrotaskOutcome.scheduled (queue ++ [cb]) := by
  refine ⟨rfl, ?_, rfl⟩
  intro q
  simp [enqueueMicrotask]

/-- C9 witness: concrete non-invocable and invocable calls. -/
theorem enqueueMicrotask_correct_witness :
    enqueueMicrotask false 5 [1] = MicrotaskOutcome.fatalCheck ∧
    enqueueMicrotask true 5 [1] = MicrotaskOutcome.scheduled [1, 5] :=
  ⟨(enqueueMicrotask_correct 5 [1]).1, (enqueueMicrotask_correct 5 [1]).2.2⟩

/-! ## Claims about the engine-instance lifecycle -/

/-- C4: in every create-owned-mode construction that completes,
`deserialize_mode_` is true iff the per-instance snapshot-index table
is non-null; and every construction where the table is non-null but the
external-reference table is null fails fast, producing no instance. -/
theorem mkOwnedInstance_deserialize_mode (node_is_nwjs : Bool)
    (indexes : Option (List Nat)) (externalRefs : Bool) :
    (∀ inst tr,
       mkOwnedInstance node_is_nwjs indexes externalRefs = some (inst, tr) →
         inst.deserialize_mode = indexes.isSome) ∧
    (indexes.isSome = true → externalRefs = false →
       mkOwnedInstance node_is_nwjs indexes externalRefs = none) := by
  constructor
  · intro inst tr h
    unfold mkOwnedInstance at h
    by_cases hd : (indexes.isSome && !externalRefs) = true
    · simp [hd] at h
    · simp only [hd, Bool.false_eq_true, if_false, Option.some.injEq,
        Prod.mk.injEq] at h
      obtain ⟨hi, -⟩ := h
      rw [← hi]
  · intro hi he
    unfold mkOwnedInstance
    simp [hi, he]

/-- C4 witness: snapshot-index table supplied without external
references fails fast. -/
theorem mkOwnedInstance_deserialize_mode_witness :
    mkOwnedInstance false (some [0]) false = none :=
  (mkOwnedInstance_deserialize_mode false (some [0]) false).2 rfl rfl

/-- C5: in every create-owned-mode construction that completes, the
isolate is registered with the platform exactly once, initialized
exactly once, and the registration strictly precedes the
initialization; the destructor of an owning instance disposes the
isolate and then unregisters it (exactly one unregistration), and the
destructor is a no-op when the isolate is not owned. -/
theorem isolate_registration_ordering (node_is_nwjs : Bool)
    (indexes : Option (List Nat)) (externalRefs : Bool)
    (inst : OwnedInstance) (tr : List CtorEvent)
    (h : mkOwnedInstance node_is_nwjs indexes externalRefs = some (inst, tr)) :
    (tr.count CtorEvent.registerIsolate = 1 ∧
     tr.count CtorEvent.initializeIsolate = 1 ∧
     tr.indexOf CtorEvent.registerIsolate <
       tr.indexOf CtorEvent.initializeIsolate) ∧
    (inst.owns_isolate = true ∧
     destructorEvents inst.owns_isolate =
       [DtorEvent.disposeIsolate, DtorEvent.unregisterIsolate] ∧
     (destructorEvents inst.owns_isolate).count DtorEvent.unregisterIsolate
       = 1) ∧
    destructorEvents false = [] := by
  unfold mkOwnedInstance at h
  by_cases hd : (indexes.isSome && !externalRefs) = true
  · simp [hd] at h
  · simp only [hd, Bool.false_eq_true, if_false, Option.some.injEq,
      Prod.mk.injEq] at h
    obtain ⟨hi, ht⟩ := h
    subst ht
    rw [← hi]
    cases node_is_nwjs <;> cases hni : indexes.isSome <;>
      simp [hni, destructorEvents]

/-- C5 witness: a plain owned construction (no nwjs flag, no snapshot
table). -/
theorem isolate_registration_ordering_witness :
    ([CtorEvent.createAllocator, CtorEvent.allocateIsolate,
      CtorEvent.registerIsolate, CtorEvent.setCreateParamsForNode,
      CtorEvent.initializeIsolate, CtorEvent.newIsolateData,
      CtorEvent.setUpMisc,
      CtorEvent.setUpErrorHandlers].count CtorEvent.registerIsolate = 1) ∧
    destructorEvents true =
      [DtorEvent.disposeIsolate, DtorEvent.unregisterIsolate] := by
  have h := isolate_registration_ordering false none true
      ⟨some (), some (), true, false⟩
      [CtorEvent.createAllocator, CtorEvent.allocateIsolate,
       CtorEvent.registerIsolate, CtorEvent.setCreateParamsForNode,
       CtorEvent.initializeIsolate, CtorEvent.newIsolateData,
       CtorEvent.setUpMisc, CtorEvent.setUpErrorHandlers] rfl
  exact ⟨h.1.1, h.2.1.2.1⟩

/-- C10: in every create-owned-mode construction with the process-wide
nwjs flag set, the freshly created array-buffer allocator is discarded
(the constructor performs the reset step), the isolate is initialized
with a null allocator, and the instance still owns its isolate — so
ownership does not imply an allocator is present. -/
theorem nwjs_owned_null_allocator (indexes : Option (List Nat))
    (externalRefs : Bool) (inst : OwnedInstance) (tr : List CtorEvent)
    (h : mkOwnedInstance true indexes externalRefs = some (inst, tr)) :
    inst.owns_isolate = true ∧
    inst.array_buffer_allocator = none ∧
    inst.paramsAllocator = none ∧
    CtorEvent.resetAllocator ∈ tr := by
  unfold mkOwnedInstance at h
  by_cases hd : (indexes.isSome && !externalRefs) = true
  · simp [hd] at h
  · simp only [hd, Bool.false_eq_true, if_false, Option.some.injEq,
      Prod.mk.injEq] at h
    obtain ⟨hi, ht⟩ := h
    subst ht
    rw [← hi]
    cases hni : indexes.isSome <;> simp [hni]

/-- C10 witness: nwjs-mode construction without a snapshot table. -/
theorem nwjs_owned_null_allocator_witness :
    (⟨none, none, true, false⟩ : OwnedInstance).owns_isolate = true ∧
    (⟨none, none, true, false⟩ : OwnedInstance).array_buffer_allocator
      = none := by
  have h := nwjs_owned_null_allocator none true ⟨none, none, true, false⟩
      [CtorEvent.createAllocator, CtorEvent.resetAllocator,
       CtorEvent.allocateIsolate, CtorEvent.registerIsolate,
       CtorEvent.setCreateParamsForNode, CtorEvent.initializeIsolate,
       CtorEvent.newIsolateData, CtorEvent.setUpMisc,
       CtorEvent.setUpErrorHandlers] rfl
  exact ⟨h.1, h.2.1⟩

/-- C6: `CreateMainEnvironment` always yields an environment (given the
context `CHECK` passes): on inspector-initialization failure it stores
that nonzero exit code and returns the un-bootstrapped environment
immediately; on bootstrap failure it stores the generic failure code 1
and still returns the environment; on success the exit code is 0 and
the environment is bootstrapped. -/
theorem createMainEnvironment_always_env (inspectorExit : Int)
    (bootstrapOk : Bool) :
    (createMainEnvironment false inspectorExit bootstrapOk).isSome = true ∧
    (inspectorExit ≠ 0 →
       createMainEnvironment false inspectorExit bootstrapOk =
         some ({ isMainThread := true, ownsProcessState := true,
                 ownsInspector := true, bootstrapped := false },
               inspectorExit)) ∧
    (inspectorExit = 0 → bootstrapOk = false →
       createMainEnvironment false inspectorExit bootstrapOk =
         some ({ isMainThread := true, ownsProcessState := true,
                 ownsInspector := true, bootstrapped := false }, 1)) ∧
    (inspectorExit = 0 → bootstrapOk = true →
       createMainEnvironment false inspectorExit bootstrapOk =
         some ({ isMainThread := true, ownsProcessState := true,
                 ownsInspector := true, bootstrapped := true }, 0)) := by
  by_cases hz : inspectorExit = 0 <;> cases bootstrapOk <;>
    simp [createMainEnvironment, hz]

/-- C6 witness: inspector initialization failing with code 9. -/
theorem createMainEnvironment_always_env_witness :
    createMainEnvironment false 9 true =
      some ({ isMainThread := true, ownsProcessState := true,
              ownsInspector := true, bootstrapped := false }, 9) :=
  (createMainEnvironment_always_env 9 true).2.1 (by decide)

/-- C7: when `CreateMainEnvironment` yields a nonzero exit code, `Run()`
skips the load phase, the main loop and the exit-event emission, runs
the full teardown sequence (disallow script invocation, stop sub-worker
contexts, reset stdio, run cleanup hooks, run at-exit hooks, drain then
cancel remaining platform tasks) unconditionally and in that order, and
returns that nonzero exit code. -/
theorem runMain_startup_failure {σ : Type} (M : LoopModel σ) (fuel : Nat)
    (s0 : σ) (inspectorExit : Int) (bootstrapOk : Bool)
    (emitExitCode : Int) (env : MainEnv) (exit0 : Int)
    (hcme : createMainEnvironment false inspectorExit bootstrapOk =
      some (env, exit0))
    (hne : exit0 ≠ 0) :
    runMain M fuel s0 false inspectorExit bootstrapOk emitExitCode =
      some (exit0, teardownPhases) ∧
    RunPhase.loadEnvironment ∉ teardownPhases ∧
    RunPhase.mainLoop ∉ teardownPhases ∧
    RunPhase.emitExit ∉ teardownPhases ∧
    teardownPhases =
      [RunPhase.setCanCallIntoJsFalse, RunPhase.stopSubWorkerContexts,
       RunPhase.resetStdio, RunPhase.runCleanup, RunPhase.runAtExit,
       RunPhase.drainVMTasksFinal, RunPhase.cancelVMTasks] := by
  refine ⟨?_, by decide, by decide, by decide, rfl⟩
  unfold runMain
  rw [hcme]
  simp [hne]

/-- C7 witness: inspector failure code 9 propagates through `Run()` with
teardown intact. -/
theorem runMain_startup_failure_witness :
    runMain unitLoopModel 1 () false 9 true 0 = some (9, teardownPhases) := by
  have h := runMain_startup_failure unitLoopModel 1 () 9 true 0
      { isMainThread := true, ownsProcessState := true,
        ownsInspector := true, bootstrapped := false } 9 (by decide)
      (by decide)
  exact h.1

/-- `loopIter` written through `postBeforeExitState`. -/
theorem loopIter_eq {σ : Type} (M : LoopModel σ) (s : σ) :
    loopIter M s =
      (if M.alive (M.drainVMTasks (M.uvRun s)) &&
            !M.stopping (M.drainVMTasks (M.uvRun s)) then
         (M.drainVMTasks (M.uvRun s), true)
       else (postBeforeExitState M s,
             M.alive (postBeforeExitState M s) &&
               !M.stopping (postBeforeExitState M s))) := by
  unfold loopIter postBeforeExitState
  rfl

/-- C8: one iteration of the main loop repeats iff its final state still
has pending reactor work and the stopping flag is clear — equivalently,
the loop exits iff, at the end of an iteration (after the before-exit
hooks and the conditional before-exit event on the non-`continue` path),
the reactor has no pending work or stopping was requested; in
particular, once the `continue` guard fails, a stopping flag set during
the before-exit hooks forces exit even if pending reactor work exists;
and the fuelled loop unfolds accordingly. -/
theorem mainLoop_exit_iff {σ : Type} (M : LoopModel σ) (s : σ) :
    ((loopIter M s).2 =
       (M.alive (loopIter M s).1 && !M.stopping (loopIter M s).1)) ∧
    ((M.alive (M.drainVMTasks (M.uvRun s)) &&
        !M.stopping (M.drainVMTasks (M.uvRun s))) = false →
       M.stopping (postBeforeExitState M s) = true →
       (loopIter M s).2 = false) ∧
    (∀ fuel, runLoop M (fuel + 1) s =
       if (loopIter M s).2 then runLoop M fuel (loopIter M s).1
       else some (loopIter M s).1) := by
  refine ⟨?_, ?_, ?_⟩
  · rw [loopIter_eq]
    by_cases hg : (M.alive (M.drainVMTasks (M.uvRun s)) &&
        !M.stopping (M.drainVMTasks (M.uvRun s))) = true
    · simp [hg]
    · simp [hg]
  · intro hg hstop
    rw [loopIter_eq]
    simp only [hg, Bool.false_eq_true, if_false]
    simp [hstop]
  · intro fuel
    rw [runLoop.eq_def]
    rcases hlt : loopIter M s with ⟨s1, cont⟩
    cases cont <;> simp [hlt]

/-- C8 witness: a before-exit hook sets the stopping flag while the
before-exit event schedules new reactor work; the loop still exits. -/
theorem mainLoop_exit_iff_witness :
    (loopIter stopDuringHooksModel (false, false)).2 = false :=
  (mainLoop_exit_iff stopDuringHooksModel (false, false)).2.1
    (by decide) (by decide)

end NwjsNode
